import Mathlib

/-!
Verification of the step-execution and recovery loop of the Smart-Workflow-Engine
repository.  The definitions below are a shallow embedding of the Python source:

* `max_retries`, `step_loop`, `execute_step`   — `ActionExecutor.execute_step` (assistant_bot.py)
* `run_plan_go`, `execute_automation`          — the step-iteration loop of `execute_automation` (api.py)
* `detect_screen_change`, `click_go`,
  `recover_click_coordinates`                  — `SmartErrorRecovery._recover_click_coordinates`
                                                 and `_detect_screen_change` (error_recovery.py)
* `ai_go`, `ai_powered_recovery`               — `SmartErrorRecovery._ai_powered_recovery`
* `wait_retry_go`, `recover_wait_and_retry`    — `SmartErrorRecovery._recover_wait_and_retry`
* `gate_route`, `handle_failed_step`           — the strategy dispatch of `handle_failed_step`
* `key_mapping`, `special_key_map`             — the special-key table of `replay_workflow`
* `sanitize_name`, `save_workflow`,
  `stop_recording`, `start_recording`          — `WorkflowRecorder` (workflow_recorder.py)
* `replay_workflow`                            — `WorkflowRecorder.replay_workflow`

Side-effecting collaborators (pyautogui clicks, screenshots, the generative model,
the filesystem) are modelled as explicit oracle parameters, and every observable
side effect is recorded in an event trace returned next to the boolean result.
-/

namespace SmartWorkflow

/-- Substring test, the embedding of Python's `needle in haystack`. -/
def contains_sub (haystack needle : String) : Bool :=
  haystack.toList.tails.any (fun t => needle.toList.isPrefixOf t)

/-- ASCII lowering of one character, the embedding of Python's `str.lower`
(the recorded key names and error messages are ASCII). -/
def lower_char (c : Char) : Char :=
  if 'A' ≤ c ∧ c ≤ 'Z' then Char.ofNat (c.toNat + 32) else c

/-- Embedding of Python's `str.lower()`. -/
def lower_str (s : String) : String :=
  String.mk (s.toList.map lower_char)

/-! ### Special-key mapping of `WorkflowRecorder.replay_workflow` -/

/-- First-match association lookup, the embedding of `dict.get` on a literal
dictionary with distinct keys. -/
def lookup_str : List (String × String) → String → Option String
  | [], _ => none
  | (a, b) :: rest, k => if k = a then some b else lookup_str rest k

/-- The entries of the `key_mapping` dictionary of `replay_workflow`
(workflow_recorder.py, special-key branch). -/
def key_pairs : List (String × String) :=
  [("ctrl_l", "ctrl"), ("ctrl_r", "ctrl"),
   ("alt_l", "alt"), ("alt_r", "alt"),
   ("shift_l", "shift"), ("shift_r", "shift"),
   ("cmd", "cmd"), ("esc", "escape"),
   ("enter", "enter"), ("tab", "tab"),
   ("space", "space"), ("backspace", "backspace"),
   ("delete", "delete")]

/-- Lookup in the `key_mapping` dictionary. -/
def key_mapping (k : String) : Option String :=
  lookup_str key_pairs k

/-- Embedding of `key_mapping.get(key.lower(), key)`. -/
def special_key_map (k : String) : String :=
  (key_mapping (lower_str k)).getD k

/-! ### Screen-change detection and coordinate-perturbation recovery -/

/-- Per-pixel byte difference as numpy computes it on `uint8` arrays:
subtraction wraps modulo 256 and `np.abs` is the identity on `uint8`. -/
def byte_diff (b a : ℕ) : ℕ :=
  (b % 256 + 256 - a % 256) % 256

/-- Total pixel difference `np.sum(np.abs(before_array - after_array))`. -/
def img_diff_sum (before after : List ℕ) : ℕ :=
  (List.zipWith byte_diff before after).sum

/-- Embedding of `SmartErrorRecovery._detect_screen_change` with its default
threshold `0.1`: `diff / (size * 255) * 100 > 0.1`, cleared of the division:
`1000 * diff > 255 * size`. -/
def detect_screen_change (before after : List ℕ) : Bool :=
  decide (1000 * img_diff_sum before after > 255 * before.length)

/-- The fixed offset list of `_recover_click_coordinates`. -/
def offsets : List (ℤ × ℤ) :=
  [(0, 0), (10, 0), (-10, 0), (0, 10), (0, -10), (20, 20), (-20, -20)]

/-- Outcome of one trial of the offset loop: `env i = none` models an exception
raised inside the `try` block of trial `i` (caught, loop continues), and
`env i = some (before, after)` the screenshots taken around the click. -/
def detect_trial (env : ℕ → Option (List ℕ × List ℕ)) (i : ℕ) : Bool :=
  match env i with
  | none => false
  | some (b, a) => detect_screen_change b a

/-- The offset loop of `_recover_click_coordinates`: returns the boolean result
and the list of coordinates actually clicked, in order. -/
def click_go (x y : ℤ) (env : ℕ → Option (List ℕ × List ℕ)) :
    ℕ → List (ℤ × ℤ) → Bool × List (ℤ × ℤ)
  | _, [] => (false, [])
  | i, d :: rest =>
    if detect_trial env i then
      (true, [(x + d.1, y + d.2)])
    else
      let (r, tr) := click_go x y env (i + 1) rest
      (r, (x + d.1, y + d.2) :: tr)

/-- Embedding of `SmartErrorRecovery._recover_click_coordinates` for a failed
click at `(x, y)`. -/
def recover_click_coordinates (x y : ℤ) (env : ℕ → Option (List ℕ × List ℕ)) :
    Bool × List (ℤ × ℤ) :=
  click_go x y env 0 offsets

/-! ### AI-powered recovery (`SmartErrorRecovery._ai_powered_recovery`) -/

/-- One suggestion returned by the model: `{"approach", "action", "parameters",
"confidence"}`; the fields the control flow reads. -/
structure Suggestion where
  confidence : ℚ
  action : String
  deriving DecidableEq

/-- The suggestion loop of `_ai_powered_recovery`: iterate over the parsed list
in the order returned, skip entries with `confidence ≤ 0.6` (the code requires
`confidence > 0.6`), execute the rest in turn; `env i = true` means
`_execute_recovery_action` on suggestion `i` completed without raising.
Returns the result and the indices attempted, in order. -/
def ai_go (env : ℕ → Bool) : ℕ → List Suggestion → Bool × List ℕ
  | _, [] => (false, [])
  | i, s :: rest =>
    if (6 : ℚ) / 10 < s.confidence then
      if env i then (true, [i])
      else
        let (r, tr) := ai_go env (i + 1) rest
        (r, i :: tr)
    else ai_go env (i + 1) rest

/-- Embedding of `SmartErrorRecovery._ai_powered_recovery`.  `api_key = none`
is the missing-key early return; `parsed = none` models `json.loads` raising
`JSONDecodeError` (or the model call raising). -/
def ai_powered_recovery (api_key : Option String)
    (parsed : Option (List Suggestion)) (env : ℕ → Bool) : Bool × List ℕ :=
  match api_key with
  | none => (false, [])
  | some _ =>
    match parsed with
    | none => (false, [])
    | some sugs => ai_go env 0 sugs

/-- Index filter of the amended reading of the suggestion loop: the indices of
the suggestions whose confidence exceeds `0.6`, in list order. -/
def elig_go : ℕ → List Suggestion → List ℕ
  | _, [] => []
  | i, s :: rest =>
    if (6 : ℚ) / 10 < s.confidence then i :: elig_go (i + 1) rest
    else elig_go (i + 1) rest

/-- Attempt loop of the amended reading: run the eligible indices in order,
stopping at the first that does not raise. -/
def spec_go (env : ℕ → Bool) : List ℕ → Bool × List ℕ
  | [] => (false, [])
  | i :: rest =>
    if env i then (true, [i])
    else
      let (r, tr) := spec_go env rest
      (r, i :: tr)

/-- Amended specification of the suggestion loop, written from the corrected
claim's words: suggestions are attempted in the order the model returned them
(never re-sorted), every suggestion with confidence ≤ 0.6 is skipped, and the
first executed suggestion that does not raise is reported as success. -/
def ai_attempts_spec (sugs : List Suggestion) (env : ℕ → Bool) : Bool × List ℕ :=
  spec_go env (elig_go 0 sugs)

/-! ### The executor's retry loop (`ActionExecutor.execute_step`) -/

/-- Outcome of one call to `_execute_action`: it returns `True`, returns a
falsy value, or raises with a message. -/
inductive AttemptOutcome where
  | success
  | failed
  | raised (msg : String)
  deriving DecidableEq

/-- Embedding of `max_retries = 2 if action in ['click_element', 'type_text']
else 1`. -/
def max_retries (action : String) : ℕ :=
  if action = "click_element" ∨ action = "type_text" then 2 else 1

/-- Observable event of one `execute_step` run: a `time.sleep`, the start of an
attempt, or an invocation of the recovery chain (message, attempt index,
reported result). -/
inductive StepEvent where
  | sleep (secs : ℚ)
  | attempt (i : ℕ)
  | recover (msg : String) (attempt : ℕ) (result : Bool)
  deriving DecidableEq

/-- The `for attempt in range(max_retries)` loop of `execute_step`, run over
the remaining attempt indices.  `att i` is the outcome of `_execute_action` on
attempt `i`; `recov msg i` is the result of
`error_recovery.handle_failed_step(step, msg, context={"attempt": i})`.
Returns the boolean result and the event trace. -/
def step_loop (att : ℕ → AttemptOutcome) (recov : String → ℕ → Bool) :
    List ℕ → Bool × List StepEvent
  | [] => (false, [])
  | i :: rest =>
    let pre : List StepEvent := if 0 < i then [.sleep 2] else []
    match att i with
    | .success => (true, pre ++ [.attempt i, .sleep (1 / 2)])
    | .failed =>
      let (r, es) := step_loop att recov rest
      (r, pre ++ .attempt i :: es)
    | .raised msg =>
      if rest.isEmpty then
        let rr := recov msg i
        (rr, pre ++ [.attempt i, .recover msg i rr])
      else
        let (r, es) := step_loop att recov rest
        (r, pre ++ .attempt i :: es)

/-- Embedding of `ActionExecutor.execute_step` (assistant_bot.py). -/
def execute_step (action : String) (att : ℕ → AttemptOutcome)
    (recov : String → ℕ → Bool) : Bool × List StepEvent :=
  step_loop att recov (List.range (max_retries action))

/-- Number of attempts started in a trace. -/
def attempts_in (tr : List StepEvent) : ℕ :=
  tr.countP (fun e => match e with | .attempt _ => true | _ => false)

/-- Number of recovery-chain invocations in a trace. -/
def recover_count (tr : List StepEvent) : ℕ :=
  tr.countP (fun e => match e with | .recover _ _ _ => true | _ => false)

/-- Checks that every attempt after the first is immediately preceded by a
2-second sleep (the fixed backoff). -/
def backoff_aux : StepEvent → List StepEvent → Bool
  | _, [] => true
  | prev, e :: rest =>
    (match e with
     | .attempt i => decide (i = 0) || decide (prev = .sleep 2)
     | _ => true) && backoff_aux e rest

/-- Top-level fixed-backoff check on a trace. -/
def backoff_ok : List StepEvent → Bool
  | [] => true
  | e :: rest =>
    (match e with
     | .attempt i => decide (i = 0)
     | _ => true) && backoff_aux e rest

/-! ### The plan loop of `execute_automation` (api.py) -/

/-- Outcome of one call to `executor.execute_step` inside the plan loop. -/
inductive StepOutcome where
  | success
  | failed
  | raised (msg : String)
  deriving DecidableEq

/-- The log line appended for step number `n` (1-based, as in
`enumerate(steps, 1)`). -/
def step_log_message (n : ℕ) (action : String) : StepOutcome → String
  | .success => "Step " ++ toString n ++ ": " ++ action ++ " - Success"
  | .failed => "Step " ++ toString n ++ ": " ++ action ++ " - Failed"
  | .raised m => "Step " ++ toString n ++ ": " ++ action ++ " - Error: " ++ m

/-- The `for i, step in enumerate(steps, 1)` loop of `execute_automation`:
append a log line per executed step, break on a failed or raising step.
Returns the log and the 0-based indices of the steps actually attempted. -/
def run_plan_go (ex : ℕ → StepOutcome) : ℕ → List String → List String × List ℕ
  | _, [] => ([], [])
  | i, action :: rest =>
    match ex i with
    | .success =>
      let (log, att) := run_plan_go ex (i + 1) rest
      (step_log_message (i + 1) action .success :: log, i :: att)
    | .failed => ([step_log_message (i + 1) action .failed], [i])
    | .raised m => ([step_log_message (i + 1) action (.raised m)], [i])

/-- The JSON payload `execute_automation` returns to the caller (the fields the
claims are about). -/
structure ApiResult where
  success : Bool
  steps_executed : ℕ
  steps_total : ℕ
  log : List String
  deriving DecidableEq

/-- Embedding of the execution section of `execute_automation` (api.py): a plan
is the list of its actions' names, `ex i` the outcome of `execute_step` on step
`i`.  Returns the reported payload and the attempted indices. -/
def execute_automation (steps : List String) (ex : ℕ → StepOutcome) :
    ApiResult × List ℕ :=
  let (log, att) := run_plan_go ex 0 steps
  ({ success := true
     steps_executed := log.length
     steps_total := steps.length
     log := log }, att)

/-! ### Wait-and-retry recovery and the strategy dispatch
(`SmartErrorRecovery.handle_failed_step`, `_recover_wait_and_retry`) -/

/-- The fields of a failed step dict read by the recovery strategies
(`step.get(...)` with the source's defaults). -/
structure FailedStep where
  action : String
  x : ℤ := 0
  y : ℤ := 0
  text : String := ""
  key : String := ""
  deriving DecidableEq

/-- The primitive re-emission `_recover_wait_and_retry` performs for the three
action kinds it knows; `none` for every other kind (the `if/elif` chain matches
nothing and no primitive is re-executed). -/
inductive PrimAction where
  | clickAt (x y : ℤ)
  | typeText (t : String)
  | pressKey (k : String)
  deriving DecidableEq

/-- Which primitive `_recover_wait_and_retry` would re-execute for a step. -/
def prim_of (step : FailedStep) : Option PrimAction :=
  if step.action = "click_desktop_coordinates" then some (.clickAt step.x step.y)
  else if step.action = "type_text" then some (.typeText step.text)
  else if step.action = "press_key" then some (.pressKey step.key)
  else none

/-- Observable event of one `_recover_wait_and_retry` run. -/
inductive WaitEvent where
  | wait (secs : ℕ)
  | prim (p : PrimAction)
  deriving DecidableEq

/-- The escalating-wait list `[2, 5, 10]` of `_recover_wait_and_retry`. -/
def wait_times : List ℕ := [2, 5, 10]

/-- The `for wait_time in wait_times` loop: sleep, re-execute the primitive if
the action kind has one (`env i = false` models the primitive raising on
iteration `i`), report success on the first iteration that does not raise.
With no primitive to run, the first iteration cannot raise and succeeds. -/
def wait_retry_go (p : Option PrimAction) (env : ℕ → Bool) :
    ℕ → List ℕ → Bool × List WaitEvent
  | _, [] => (false, [])
  | i, w :: rest =>
    match p with
    | none => (true, [.wait w])
    | some pa =>
      if env i then (true, [.wait w, .prim pa])
      else
        let (r, es) := wait_retry_go p env (i + 1) rest
        (r, .wait w :: .prim pa :: es)

/-- Embedding of `SmartErrorRecovery._recover_wait_and_retry`. -/
def recover_wait_and_retry (step : FailedStep) (env : ℕ → Bool) :
    Bool × List WaitEvent :=
  wait_retry_go (prim_of step) env 0 wait_times

/-- The gated strategy the `if/elif` chain of `handle_failed_step` selects. -/
inductive RecoveryRoute where
  | coords
  | focus
  | waitRetry
  | altSelectors
  deriving DecidableEq

/-- Embedding of the strategy dispatch of `handle_failed_step`
(error_recovery.py): kind and keyword gates in source order; `none` when no
gated strategy matches. -/
def gate_route (action : String) (error_message : String) : Option RecoveryRoute :=
  let e := lower_str error_message
  if action = "click_desktop_coordinates" then some .coords
  else if contains_sub e "focus" || contains_sub e "window" then some .focus
  else if contains_sub e "timeout" || contains_sub e "not found" then some .waitRetry
  else if action = "click_element" then some .altSelectors
  else none

/-- Embedding of `_recover_alternative_selectors`: the loop body always returns
`False` on its first iteration (placeholder logic in the source). -/
def recover_alternative_selectors : Bool := false

/-- Embedding of `_recover_window_focus` on the non-raising path: the blind
Alt+Tab / taskbar / OS-key sequence always reports success. -/
def recover_window_focus : Bool := true

/-- Embedding of `SmartErrorRecovery.handle_failed_step`: run the gated
strategy if one matches; when none matches or the matched one fails, fall back
to AI-powered recovery. -/
def handle_failed_step (step : FailedStep) (error_message : String)
    (env_click : ℕ → Option (List ℕ × List ℕ)) (env_wait : ℕ → Bool)
    (api_key : Option String) (parsed : Option (List Suggestion))
    (env_ai : ℕ → Bool) : Bool :=
  let gated :=
    match gate_route step.action error_message with
    | some .coords => (recover_click_coordinates step.x step.y env_click).1
    | some .focus => recover_window_focus
    | some .waitRetry => (recover_wait_and_retry step env_wait).1
    | some .altSelectors => recover_alternative_selectors
    | none => false
  if gated then true
  else (ai_powered_recovery api_key parsed env_ai).1

/-! ### The workflow recorder (`WorkflowRecorder`, workflow_recorder.py) -/

/-- One recorded input event, as serialized into the `actions` list of a
workflow artifact. -/
inductive RecAction where
  | mouseClick (x y : ℤ) (button : String) (timestamp : ℚ)
  | mouseScroll (x y dx dy : ℤ) (timestamp : ℚ)
  | keyPress (key : String) (timestamp : ℚ)
  deriving DecidableEq

/-- The `timestamp` field of a recorded event. -/
def RecAction.timestamp : RecAction → ℚ
  | .mouseClick _ _ _ t => t
  | .mouseScroll _ _ _ _ t => t
  | .keyPress _ t => t

/-- A persisted workflow artifact (the JSON object `_save_workflow` writes). -/
structure Workflow where
  name : String
  created_at : String
  duration : ℚ
  actions_count : ℕ
  actions : List RecAction
  deriving DecidableEq

/-- The mutable state of a `WorkflowRecorder` instance; the listener fields
model whether the pynput listeners are armed. -/
structure RecorderState where
  recording : Bool
  workflow_name : Option String
  start_time : Option ℚ
  recorded_actions : List RecAction
  mouse_listener : Bool
  keyboard_listener : Bool
  deriving DecidableEq

/-- The state `_reset_state` (plus the listener teardown of `stop_recording`)
leaves behind. -/
def cleared_state : RecorderState :=
  { recording := false
    workflow_name := none
    start_time := none
    recorded_actions := []
    mouse_listener := false
    keyboard_listener := false }

/-- Embedding of the filename sanitization of `_save_workflow`:
keep alphanumerics, space, `-`, `_`; strip trailing whitespace; replace spaces
with underscores. -/
def sanitize_name (name : String) : String :=
  let kept := name.toList.filter (fun c => c.isAlphanum || c = ' ' || c = '-' || c = '_')
  let stripped := (kept.reverse.dropWhile (fun c => c = ' ')).reverse
  String.mk (stripped.map (fun c => if c = ' ' then '_' else c))

/-- Embedding of `_save_workflow` on the successful I/O path: `ts` is
`datetime.now().strftime('%Y%m%d_%H%M%S')`, `iso` is
`datetime.now().isoformat()`, `now` is `time.time()`.  Returns the filename and
the serialized artifact. -/
def save_workflow (ts iso : String) (now : ℚ) (st : RecorderState) :
    String × Workflow :=
  let safe_name := sanitize_name (st.workflow_name.getD "")
  let filename := "workflows/" ++ safe_name ++ "_" ++ ts ++ ".json"
  (filename,
   { name := st.workflow_name.getD ""
     created_at := iso
     duration := match st.start_time with | some t => now - t | none => 0
     actions_count := st.recorded_actions.length
     actions := st.recorded_actions })

/-- Embedding of `WorkflowRecorder.stop_recording` on the successful I/O path:
returns the value returned to the caller (`none` is Python's `None`), the
recorder state afterwards, and the artifact persisted, if any. -/
def stop_recording (ts iso : String) (now : ℚ) (st : RecorderState) :
    Option String × RecorderState × Option (String × Workflow) :=
  if st.recording then
    let (filename, wf) := save_workflow ts iso now st
    (some filename, cleared_state, some (filename, wf))
  else
    (none, st, none)

/-- The state `start_recording` arms: fresh buffer, fresh start time, both
listeners running. -/
def armed_state (name : String) (now : ℚ) : RecorderState :=
  { recording := true
    workflow_name := some name
    start_time := some now
    recorded_actions := []
    mouse_listener := true
    keyboard_listener := true }

/-- Embedding of `WorkflowRecorder.start_recording`: stop the previous session
first when one is armed, then arm a new one.  Returns the boolean result, the
new state, and the artifact the forced stop persisted, if any. -/
def start_recording (name : String) (ts iso : String) (now : ℚ)
    (st : RecorderState) : Bool × RecorderState × Option (String × Workflow) :=
  if st.recording then
    let (_, _, saved) := stop_recording ts iso now st
    (true, armed_state name now, saved)
  else
    (true, armed_state name now, none)

/-! ### The replayer (`WorkflowRecorder.replay_workflow`) -/

/-- Observable event of one replay run: a sleep or a re-emitted input event. -/
inductive ReplayEvent where
  | sleep (secs : ℚ)
  | click (x y : ℤ)
  | write (text : String)
  | press (key : String)
  | scroll (x y dy : ℤ)
  deriving DecidableEq

/-- One iteration of the replay loop: the capped inter-event delay followed by
the re-emission, and the new `last_timestamp`. -/
def replay_step (speed : ℚ) (last : ℚ) (a : RecAction) : List ReplayEvent × ℚ :=
  let t := a.timestamp
  let delay := (t - last) / speed
  let sleeps : List ReplayEvent := if 0 < delay then [.sleep (min delay 2)] else []
  let emits : List ReplayEvent :=
    match a with
    | .mouseClick x y _ _ => [.click x y]
    | .keyPress k _ =>
      if k.length = 1 then [.write k] else [.press (special_key_map k)]
    | .mouseScroll x y _ dy _ => [.scroll x y dy]
  (sleeps ++ emits, t)

/-- The `for i, action in enumerate(actions, 1)` loop of `replay_workflow`. -/
def replay_loop (speed : ℚ) : ℚ → List RecAction → List ReplayEvent
  | _, [] => []
  | last, a :: rest =>
    let (es, t) := replay_step speed last a
    es ++ replay_loop speed t rest

/-- Character-level prefix test, the embedding of Python's `str.startswith`. -/
def starts_with (pre s : String) : Bool :=
  pre.toList.isPrefixOf s.toList

/-- The path normalization at the top of `replay_workflow`. -/
def norm_workflow_path (file : String) : String :=
  if starts_with "workflows/" file then file else "workflows/" ++ file

/-- Embedding of `WorkflowRecorder.replay_workflow`: `store` is the persisted
artifact store (path to artifact).  Returns the boolean result and the trace of
sleeps and re-emitted input events. -/
def replay_workflow (store : String → Option Workflow) (file : String)
    (speed : ℚ) : Bool × List ReplayEvent :=
  match store (norm_workflow_path file) with
  | none => (false, [])
  | some wf =>
    if wf.actions.isEmpty then (true, [])
    else (true, .sleep 2 :: replay_loop speed 0 wf.actions)

/-! ### Concrete inputs used by witnesses and counterexamples -/

/-- An artifact with an empty `actions` list. -/
def wf_empty : Workflow :=
  { name := "w", created_at := "", duration := 0, actions_count := 0, actions := [] }

/-- A store holding only the empty artifact at `workflows/w.json`. -/
def store_w : String → Option Workflow :=
  fun p => if p = "workflows/w.json" then some wf_empty else none

/-- A failed step of a kind `_recover_wait_and_retry` has no primitive for. -/
def step_nav : FailedStep := { action := "navigate_url" }

/-- Two model suggestions in ascending confidence order. -/
def sugs_cex : List Suggestion :=
  [{ confidence := 7 / 10, action := "type_text" },
   { confidence := 9 / 10, action := "press_key" }]

/-- Execution oracle for `sugs_cex`: the first suggestion raises, the second
completes. -/
def env_cex : ℕ → Bool := fun i => decide (i = 1)

/-- Screenshot pair whose pixel-difference ratio is exactly 0.1 %:
one changed pixel of magnitude 51 out of 200 bytes (51/(200·255) = 1/1000). -/
def before_cex : List ℕ := 51 :: List.replicate 199 0

/-- The unchanged counterpart of `before_cex`. -/
def after_cex : List ℕ := List.replicate 200 0

/-- Click-trial oracle: the first offset produces exactly a 0.1 % change, every
later offset produces none. -/
def env_cex4 : ℕ → Option (List ℕ × List ℕ) :=
  fun i => if i = 0 then some (before_cex, after_cex) else some ([0], [0])

/-- Click-trial oracle whose third trial registers a clear screen change. -/
def env_w4 : ℕ → Option (List ℕ × List ℕ) :=
  fun i => if i = 2 then some ([255], [0]) else some ([0], [0])

/-- Attempt oracle: first attempt returns a falsy value, second raises. -/
def att_w3 : ℕ → AttemptOutcome :=
  fun i => if i = 0 then .failed else .raised "boom"

/-- Recovery oracle reporting success. -/
def recov_w3 : String → ℕ → Bool := fun _ _ => true

/-- A three-step plan whose second step fails. -/
def steps_w1 : List String := ["A", "B", "C"]

/-- Plan oracle for `steps_w1`: step 0 succeeds, step 1 fails. -/
def ex_w1 : ℕ → StepOutcome :=
  fun i => if i = 0 then .success else if i = 1 then .failed else .success

/-- An armed recorder session with an empty event buffer. -/
def empty_armed_state : RecorderState :=
  { recording := true
    workflow_name := some "demo"
    start_time := some 0
    recorded_actions := []
    mouse_listener := true
    keyboard_listener := true }

/-- An armed recorder session holding one recorded event, under a name that
needs sanitizing. -/
def sample_recorded_state : RecorderState :=
  { recording := true
    workflow_name := some "My Flow!"
    start_time := some 2
    recorded_actions := [RecAction.keyPress "a" (5 / 2)]
    mouse_listener := true
    keyboard_listener := true }

/-! ## Theorems -/

theorem lookup_str_mem : ∀ (l : List (String × String)) (k v : String),
    lookup_str l k = some v → v ∈ l.map Prod.snd := by
  intro l
  induction l with
  | nil => intro k v h; simp [lookup_str] at h
  | cons p rest ih =>
    intro k v h
    obtain ⟨a, b⟩ := p
    simp only [lookup_str] at h
    by_cases hk : k = a
    · rw [if_pos hk] at h
      injection h with h
      subst h
      simp
    · rw [if_neg hk] at h
      simpa using Or.inr (ih k v h)

theorem key_mapping_canonical (k v : String) (h : key_mapping k = some v) :
    special_key_map v = v := by
  have hv := lookup_str_mem key_pairs k v h
  simp only [key_pairs, List.map_cons, List.map_nil, List.mem_cons,
    List.not_mem_nil, or_false] at hv
  rcases hv with rfl | rfl | rfl | rfl | rfl | rfl | rfl | rfl | rfl | rfl | rfl | rfl | rfl <;>
    decide

/-- C9: the Replayer's special-key name mapping is idempotent — for every key
name `k`, `map (map k) = map k` — and mapping the already-canonical key name
`"enter"` leaves it unchanged. -/
theorem c9_key_map_idempotent :
    (∀ k : String, special_key_map (special_key_map k) = special_key_map k) ∧
    special_key_map "enter" = "enter" := by
  refine ⟨fun k => ?_, by decide⟩
  cases h : key_mapping (lower_str k) with
  | none =>
    simp [special_key_map, h]
  | some v =>
    have hv := key_mapping_canonical _ _ h
    simp only [special_key_map, h, Option.getD_some]
    simpa [special_key_map] using hv

/-- C6: `replay_workflow` returns `false` (without raising) when the named
artifact does not exist, and returns `true` immediately — no settle pause, no
emitted input event — when the artifact exists with an empty event list. -/
theorem c6_replay_missing_or_empty :
    ∀ (store : String → Option Workflow) (file : String) (speed : ℚ),
      (store (norm_workflow_path file) = none →
        replay_workflow store file speed = (false, [])) ∧
      (∀ wf, store (norm_workflow_path file) = some wf → wf.actions = [] →
        replay_workflow store file speed = (true, [])) := by
  intro store file speed
  constructor
  · intro h
    simp [replay_workflow, h]
  · intro wf h ha
    simp [replay_workflow, h, ha]

/-- Witness for C6: on a concrete store, a missing artifact yields
`(false, [])` and the empty artifact yields `(true, [])` with no events. -/
theorem c6_witness :
    replay_workflow store_w "missing.json" 1 = (false, []) ∧
    replay_workflow store_w "w.json" 1 = (true, []) :=
  ⟨(c6_replay_missing_or_empty store_w "missing.json" 1).1 (by decide),
   (c6_replay_missing_or_empty store_w "w.json" 1).2 wf_empty (by decide) rfl⟩

/-- C10: when `handle_failed_step` routes a failure to wait-and-retry and the
failed action's kind is none of `click_desktop_coordinates`, `type_text`,
`press_key`, the strategy re-executes no primitive action at all yet reports
recovery success after the first 2-second wait, and the step counts as
recovered. -/
theorem c10_wait_retry_vacuous :
    ∀ (step : FailedStep) (err : String)
      (env_click : ℕ → Option (List ℕ × List ℕ)) (env_wait : ℕ → Bool)
      (api_key : Option String) (parsed : Option (List Suggestion))
      (env_ai : ℕ → Bool),
      gate_route step.action err = some RecoveryRoute.waitRetry →
      prim_of step = none →
      recover_wait_and_retry step env_wait = (true, [WaitEvent.wait 2]) ∧
      handle_failed_step step err env_click env_wait api_key parsed env_ai = true := by
  intro step err ec ew k p ea hg hp
  have h1 : recover_wait_and_retry step ew = (true, [WaitEvent.wait 2]) := by
    simp [recover_wait_and_retry, wait_times, wait_retry_go, hp]
  refine ⟨h1, ?_⟩
  simp [handle_failed_step, hg, h1]

/-- Witness for C10: a failed `navigate_url` step with a "not found" error is
routed to wait-and-retry and vacuously recovered after one 2-second wait. -/
theorem c10_witness :
    recover_wait_and_retry step_nav (fun _ => false) = (true, [WaitEvent.wait 2]) ∧
    handle_failed_step step_nav "Element not found" (fun _ => none)
      (fun _ => false) none none (fun _ => false) = true :=
  c10_wait_retry_vacuous step_nav "Element not found" (fun _ => none)
    (fun _ => false) none none (fun _ => false) (by decide) (by decide)

theorem ai_go_eq_spec (env : ℕ → Bool) :
    ∀ (l : List Suggestion) (i : ℕ), ai_go env i l = spec_go env (elig_go i l) := by
  intro l
  induction l with
  | nil => intro i; simp [ai_go, elig_go, spec_go]
  | cons s rest ih =>
    intro i
    by_cases hc : (6 : ℚ) / 10 < s.confidence
    · by_cases he : env i
      · simp [ai_go, elig_go, spec_go, hc, he]
      · simp [ai_go, elig_go, spec_go, hc, he, ih]
    · simp [ai_go, elig_go, hc, ih]

/-- C5 (amended): AI-suggested recovery attempts the suggestions in the order
the model returned them (they are never re-sorted by confidence), skips every
suggestion with confidence ≤ 0.6, reports success at the first executed
suggestion that does not raise; with no API key, or with unparseable
suggestions, it reports failure without attempting anything. -/
theorem c5_ai_recovery_order :
    ∀ (key : String) (sugs : List Suggestion) (parsed : Option (List Suggestion))
      (env : ℕ → Bool),
      ai_powered_recovery (some key) (some sugs) env = ai_attempts_spec sugs env ∧
      ai_powered_recovery none parsed env = (false, []) ∧
      ai_powered_recovery (some key) none env = (false, []) := by
  intro key sugs parsed env
  refine ⟨?_, rfl, rfl⟩
  simp [ai_powered_recovery, ai_attempts_spec, ai_go_eq_spec]

/-- Counterexample for C5 as stated: with suggestions of confidence 0.7 then
0.9 (both above the cutoff) where the first raises and the second completes,
the code attempts index 0 before index 1 — ascending, not descending,
confidence order. -/
theorem c5_counterexample :
    ai_powered_recovery (some "k") (some sugs_cex) env_cex = (true, [0, 1]) ∧
    (sugs_cex.getD 0 { confidence := 0, action := "" }).confidence <
      (sugs_cex.getD 1 { confidence := 0, action := "" }).confidence := by
  constructor
  · norm_num [ai_powered_recovery, ai_go, sugs_cex, env_cex]
  · norm_num [sugs_cex]

theorem click_go_all_fail (x y : ℤ) (env : ℕ → Option (List ℕ × List ℕ)) :
    ∀ (l : List (ℤ × ℤ)) (i0 : ℕ),
      (∀ k, k < l.length → detect_trial env (i0 + k) = false) →
      click_go x y env i0 l = (false, l.map (fun d => (x + d.1, y + d.2))) := by
  intro l
  induction l with
  | nil => intro i0 _; simp [click_go]
  | cons d rest ih =>
    intro i0 h
    have h0 : detect_trial env i0 = false := by simpa using h 0 (by simp)
    have hrec := ih (i0 + 1) (fun k hk => by
      have hh := h (k + 1) (by simpa using Nat.succ_lt_succ hk)
      have e : i0 + (k + 1) = i0 + 1 + k := by omega
      rwa [e] at hh)
    simp [click_go, h0, hrec]

theorem click_go_first_hit (x y : ℤ) (env : ℕ → Option (List ℕ × List ℕ)) :
    ∀ (l : List (ℤ × ℤ)) (i0 k : ℕ),
      k < l.length → detect_trial env (i0 + k) = true →
      (∀ j, j < k → detect_trial env (i0 + j) = false) →
      click_go x y env i0 l =
        (true, (l.take (k + 1)).map (fun d => (x + d.1, y + d.2))) := by
  intro l
  induction l with
  | nil => intro i0 k hk; simp at hk
  | cons d rest ih =>
    intro i0 k hk hdet hprev
    cases k with
    | zero =>
      have h0 : detect_trial env i0 = true := by simpa using hdet
      simp [click_go, h0]
    | succ k' =>
      have h0 : detect_trial env i0 = false := by
        simpa using hprev 0 (Nat.succ_pos _)
      have hdet' : detect_trial env (i0 + 1 + k') = true := by
        have e : i0 + (k' + 1) = i0 + 1 + k' := by omega
        rwa [e] at hdet
      have hprev' : ∀ j, j < k' → detect_trial env (i0 + 1 + j) = false := by
        intro j hj
        have hh := hprev (j + 1) (Nat.succ_lt_succ hj)
        have e : i0 + (j + 1) = i0 + 1 + j := by omega
        rwa [e] at hh
      have hrec := ih (i0 + 1) k' (by simpa using Nat.lt_of_succ_lt_succ hk)
        hdet' hprev'
      simp [click_go, h0, hrec]

/-- C4 (amended): coordinate-perturbation recovery tries click offsets from the
original point in exactly the fixed order
`(0,0),(10,0),(-10,0),(0,10),(0,-10),(20,20),(-20,-20)`, stops reporting
success at the first offset whose before/after pixel-difference ratio is
strictly greater than 0.1 % (the code tests `change_percentage > 0.1`, not
`≥`), and reports failure after trying all seven offsets when none registers
such a change. -/
theorem c4_coordinate_recovery_order :
    ∀ (x y : ℤ) (env : ℕ → Option (List ℕ × List ℕ)),
      offsets = [(0, 0), (10, 0), (-10, 0), (0, 10), (0, -10), (20, 20), (-20, -20)] ∧
      (∀ i, i < offsets.length → detect_trial env i = true →
        (∀ j, j < i → detect_trial env j = false) →
        recover_click_coordinates x y env =
          (true, (offsets.take (i + 1)).map (fun d => (x + d.1, y + d.2)))) ∧
      ((∀ i, i < offsets.length → detect_trial env i = false) →
        recover_click_coordinates x y env =
          (false, offsets.map (fun d => (x + d.1, y + d.2)))) := by
  intro x y env
  refine ⟨rfl, ?_, ?_⟩
  · intro i hi hdet hprev
    have h := click_go_first_hit x y env offsets 0 i hi (by simpa using hdet)
      (fun j hj => by simpa using hprev j hj)
    simpa [recover_click_coordinates] using h
  · intro h
    have h' := click_go_all_fail x y env offsets 0 (fun k hk => by simpa using h k hk)
    simpa [recover_click_coordinates] using h'

/-- Witness for C4: with a clear screen change registered on the third trial
only, recovery succeeds there after clicking the first three offsets in
order. -/
theorem c4_witness :
    recover_click_coordinates 100 200 env_w4 =
      (true, [((100 : ℤ), (200 : ℤ)), (110, 200), (90, 200)]) := by
  have h := (c4_coordinate_recovery_order 100 200 env_w4).2.1 2 (by decide)
    (by decide) (by decide)
  exact h.trans (by decide)

set_option maxRecDepth 4000 in
/-- Counterexample for C4 as stated: screenshots whose pixel-difference ratio
is exactly 0.1 % (first conjunct: `1000 · diff = 255 · size`) on the very first
offset.  The claim's "≥ 0.1 %" predicts success at offset `(0,0)`, but the code
registers no change, tries all seven offsets and reports failure. -/
theorem c4_counterexample :
    1000 * img_diff_sum before_cex after_cex = 255 * before_cex.length ∧
    recover_click_coordinates 100 200 env_cex4 =
      (false, [((100 : ℤ), (200 : ℤ)), (110, 200), (90, 200), (100, 210),
        (100, 190), (120, 220), (80, 180)]) := by
  constructor <;> decide

/-- C2: `execute_step` attempts an action at most `max_retries` times, where
`max_retries = 2` exactly for the interactive kinds (`click_element`,
`type_text`) and `1` for every other kind, and a fixed 2-second sleep — no
exponential growth — immediately precedes every retry attempt after the
first. -/
theorem c2_retry_policy :
    ∀ (action : String) (att : ℕ → AttemptOutcome) (recov : String → ℕ → Bool),
      attempts_in (execute_step action att recov).2 ≤ max_retries action ∧
      ((action = "click_element" ∨ action = "type_text") ↔ max_retries action = 2) ∧
      (max_retries action = 2 ∨ max_retries action = 1) ∧
      backoff_ok (execute_step action att recov).2 = true := by
  intro action att recov
  by_cases hA : action = "click_element" ∨ action = "type_text"
  · have hm : max_retries action = 2 := by simp [max_retries, hA]
    have he : execute_step action att recov = step_loop att recov [0, 1] := by
      rw [execute_step, hm]
      rfl
    refine ⟨?_, by simp [hA, hm], Or.inl hm, ?_⟩ <;>
      rw [he] <;>
      try rw [hm]
    · rcases h0 : att 0 with _ | _ | m0 <;> rcases h1 : att 1 with _ | _ | m1 <;>
        simp [step_loop, attempts_in, h0, h1]
    · rcases h0 : att 0 with _ | _ | m0 <;> rcases h1 : att 1 with _ | _ | m1 <;>
        simp [step_loop, backoff_ok, backoff_aux, h0, h1]
  · have hm : max_retries action = 1 := by simp [max_retries, hA]
    have he : execute_step action att recov = step_loop att recov [0] := by
      rw [execute_step, hm]
      rfl
    refine ⟨?_, by simp [hA, hm], Or.inr hm, ?_⟩ <;>
      rw [he] <;>
      try rw [hm]
    · rcases h0 : att 0 with _ | _ | m0 <;>
        simp [step_loop, attempts_in, h0]
    · rcases h0 : att 0 with _ | _ | m0 <;>
        simp [step_loop, backoff_ok, backoff_aux, h0]

/-- C3 (amended): the Recovery Strategy chain is invoked exactly when the final
attempt of `execute_step` raises an exception, and only then, with the last
error message and the attempt number; its verdict becomes the step's result.  A
non-final failed attempt never triggers recovery — and neither does a final
attempt that merely returns failure without raising. -/
theorem c3_recovery_on_final_raise :
    ∀ (action : String) (att : ℕ → AttemptOutcome) (recov : String → ℕ → Bool),
      (∀ msg i b, StepEvent.recover msg i b ∈ (execute_step action att recov).2 →
        i = max_retries action - 1 ∧ att i = .raised msg ∧ b = recov msg i) ∧
      (∀ msg, (∀ i, i + 1 < max_retries action → att i ≠ .success) →
        att (max_retries action - 1) = .raised msg →
        recover_count (execute_step action att recov).2 = 1 ∧
        (execute_step action att recov).1 = recov msg (max_retries action - 1)) := by
  intro action att recov
  by_cases hA : action = "click_element" ∨ action = "type_text"
  · have hm : max_retries action = 2 := by simp [max_retries, hA]
    have he : execute_step action att recov = step_loop att recov [0, 1] := by
      rw [execute_step, hm]
      rfl
    rw [he, hm]
    constructor
    · intro msg i b hmem
      rcases h0 : att 0 with _ | _ | m0 <;> rcases h1 : att 1 with _ | _ | m1 <;>
        simp [step_loop, h0, h1] at hmem <;>
        · obtain ⟨e1, e2, e3⟩ := hmem
          subst e1 e2 e3
          exact ⟨rfl, h1, rfl⟩
    · intro msg hpre hfin
      have h0 : att 0 ≠ .success := hpre 0 (by omega)
      have h1 : att 1 = .raised msg := hfin
      rcases ha : att 0 with _ | _ | m0
      · exact absurd ha h0
      · simp [step_loop, ha, h1, recover_count]
      · simp [step_loop, ha, h1, recover_count]
  · have hm : max_retries action = 1 := by simp [max_retries, hA]
    have he : execute_step action att recov = step_loop att recov [0] := by
      rw [execute_step, hm]
      rfl
    rw [he, hm]
    constructor
    · intro msg i b hmem
      rcases h0 : att 0 with _ | _ | m0 <;>
        simp [step_loop, h0] at hmem
      obtain ⟨e1, e2, e3⟩ := hmem
      subst e1 e2 e3
      exact ⟨rfl, h0, rfl⟩
    · intro msg _ hfin
      simp [step_loop, hfin, recover_count]

/-- Witness for C3 (amended): an interactive step whose first attempt returns
failure and whose second raises `"boom"` invokes recovery exactly once, and the
step's result is recovery's verdict. -/
theorem c3_witness :
    recover_count (execute_step "click_element" att_w3 recov_w3).2 = 1 ∧
    (execute_step "click_element" att_w3 recov_w3).1 =
      recov_w3 "boom" (max_retries "click_element" - 1) :=
  (c3_recovery_on_final_raise "click_element" att_w3 recov_w3).2 "boom"
    (by
      intro i hi
      have hm : max_retries "click_element" = 2 := by decide
      rw [hm] at hi
      have hz : i = 0 := by omega
      subst hz
      decide)
    (by decide)

/-- Counterexample for C3 as stated: an interactive step whose every attempt
fails by returning a falsy value (no exception) exhausts both attempts and is
reported failed, yet the recovery chain is never invoked — refuting "every run
of `execute_step` whose attempts all fail invokes recovery once". -/
theorem c3_counterexample :
    execute_step "click_element" (fun _ => .failed) (fun _ _ => true) =
      (false, [.attempt 0, .sleep 2, .attempt 1]) ∧
    recover_count (execute_step "click_element" (fun _ => .failed)
      (fun _ _ => true)).2 = 0 := by
  constructor <;> rfl

theorem run_plan_halt (ex : ℕ → StepOutcome) :
    ∀ (l : List String) (i0 k : ℕ),
      k < l.length → (∀ j, j < k → ex (i0 + j) = .success) →
      ex (i0 + k) = .failed →
      (run_plan_go ex i0 l).1.length = k + 1 ∧
      (run_plan_go ex i0 l).2 = List.range' i0 (k + 1) := by
  intro l
  induction l with
  | nil => intro i0 k hk; simp at hk
  | cons a rest ih =>
    intro i0 k hk hpre hfail
    cases k with
    | zero =>
      have h0 : ex i0 = .failed := by simpa using hfail
      constructor
      · simp [run_plan_go, h0]
      · simp [run_plan_go, h0]
    | succ k' =>
      have h0 : ex i0 = .success := by simpa using hpre 0 (Nat.succ_pos _)
      have hpre' : ∀ j, j < k' → ex (i0 + 1 + j) = .success := by
        intro j hj
        have hh := hpre (j + 1) (Nat.succ_lt_succ hj)
        have e : i0 + (j + 1) = i0 + 1 + j := by omega
        rwa [e] at hh
      have hfail' : ex (i0 + 1 + k') = .failed := by
        have e : i0 + (k' + 1) = i0 + 1 + k' := by omega
        rwa [e] at hfail
      obtain ⟨hlen, hatt⟩ := ih (i0 + 1) k'
        (by simpa using Nat.lt_of_succ_lt_succ hk) hpre' hfail'
      constructor
      · simp [run_plan_go, h0, hlen]
      · rw [List.range'_succ]
        simp [run_plan_go, h0, hatt]

/-- C1: if the step at index `i` of a plan fails while all earlier steps
succeeded, plan execution halts there — the log has exactly `i + 1` entries,
exactly the steps `0 … i` were attempted, and the reported payload carries
`steps_executed = i + 1`, `steps_total` and the log. -/
theorem c1_plan_halts_on_failure :
    ∀ (steps : List String) (ex : ℕ → StepOutcome) (i : ℕ),
      i < steps.length → (∀ j, j < i → ex j = .success) → ex i = .failed →
      (execute_automation steps ex).1.log.length = i + 1 ∧
      (execute_automation steps ex).2 = List.range (i + 1) ∧
      (execute_automation steps ex).1.steps_executed = i + 1 ∧
      (execute_automation steps ex).1.steps_total = steps.length := by
  intro steps ex i hi hpre hfail
  obtain ⟨hlen, hatt⟩ := run_plan_halt ex steps 0 i hi
    (fun j hj => by simpa using hpre j hj) (by simpa using hfail)
  refine ⟨?_, ?_, ?_, ?_⟩
  · simpa [execute_automation] using hlen
  · rw [List.range_eq_range']
    simpa [execute_automation] using hatt
  · simpa [execute_automation] using hlen
  · simp [execute_automation]

/-- Witness for C1: the plan `[A(succeeds), B(always fails), C(succeeds)]` —
the log has length 2, only steps 0 and 1 are attempted (`C` never runs), and
the payload reports 2 of 3 steps executed. -/
theorem c1_witness :
    (execute_automation steps_w1 ex_w1).1.log.length = 2 ∧
    (execute_automation steps_w1 ex_w1).2 = List.range 2 ∧
    (execute_automation steps_w1 ex_w1).1.steps_executed = 2 ∧
    (execute_automation steps_w1 ex_w1).1.steps_total = steps_w1.length :=
  c1_plan_halts_on_failure steps_w1 ex_w1 1 (by decide) (by decide) (by decide)

/-- C7 (amended): `stop_recording` while armed always serializes the Workflow —
name, creation time, duration, the ordered events, even when the event buffer
is empty — to an artifact named by the sanitized workflow name plus a timestamp
suffix, clears the in-memory state, and returns the artifact's identifier; the
"no active recording" indication (`None`) is returned only when no session is
armed, in which case nothing is saved and the state is untouched. -/
theorem c7_stop_always_saves :
    ∀ (ts iso : String) (now : ℚ) (st : RecorderState),
      (st.recording = true →
        ∃ fname wf,
          stop_recording ts iso now st = (some fname, cleared_state, some (fname, wf)) ∧
          fname = "workflows/" ++ sanitize_name (st.workflow_name.getD "") ++
            "_" ++ ts ++ ".json" ∧
          wf.name = st.workflow_name.getD "" ∧
          wf.created_at = iso ∧
          wf.actions = st.recorded_actions ∧
          wf.actions_count = st.recorded_actions.length) ∧
      (st.recording = false → stop_recording ts iso now st = (none, st, none)) := by
  intro ts iso now st
  constructor
  · intro h
    refine ⟨(save_workflow ts iso now st).1, (save_workflow ts iso now st).2,
      ?_, rfl, rfl, rfl, rfl, rfl⟩
    simp [stop_recording, h]
  · intro h
    simp [stop_recording, h]

/-- Witness for C7 (amended): stopping an armed session holding one event under
the name `"My Flow!"` returns the sanitized, timestamped artifact identifier
and persists the buffered events; stopping while idle returns `None`. -/
theorem c7_witness :
    (∃ fname wf,
      stop_recording "20250102_030405" "2025-01-02T03:04:05" 7 sample_recorded_state =
        (some fname, cleared_state, some (fname, wf)) ∧
      fname = "workflows/" ++
        sanitize_name (sample_recorded_state.workflow_name.getD "") ++
        "_" ++ "20250102_030405" ++ ".json" ∧
      wf.name = sample_recorded_state.workflow_name.getD "" ∧
      wf.created_at = "2025-01-02T03:04:05" ∧
      wf.actions = sample_recorded_state.recorded_actions ∧
      wf.actions_count = sample_recorded_state.recorded_actions.length) ∧
    stop_recording "20250102_030405" "2025-01-02T03:04:05" 7 cleared_state =
      (none, cleared_state, none) :=
  ⟨(c7_stop_always_saves "20250102_030405" "2025-01-02T03:04:05" 7
      sample_recorded_state).1 rfl,
   (c7_stop_always_saves "20250102_030405" "2025-01-02T03:04:05" 7
      cleared_state).2 rfl⟩

/-- Counterexample for C7 as stated: stopping an armed session whose event
buffer is empty does not return a "nothing was recorded" indication — it
persists an artifact with zero events and returns its identifier. -/
theorem c7_counterexample :
    empty_armed_state.recorded_actions = [] ∧
    (stop_recording "20250101_000000" "2025-01-01T00:00:00" 5 empty_armed_state).1 =
      some "workflows/demo_20250101_000000.json" ∧
    (stop_recording "20250101_000000" "2025-01-01T00:00:00" 5
      empty_armed_state).2.2 ≠ none := by
  refine ⟨rfl, ?_, ?_⟩ <;> decide

/-- C8: at most one recorder session is armed at a time — `start_recording`
while armed force-stops (and persists) the prior session before arming the new
one, the new session starts with an empty event buffer and a fresh start time,
and `stop_recording` while idle is a no-op returning the "no active recording"
indication (`None`) without error. -/
theorem c8_single_armed_session :
    ∀ (name ts iso : String) (now : ℚ) (st : RecorderState),
      (st.recording = true →
        start_recording name ts iso now st =
          (true, armed_state name now, some (save_workflow ts iso now st))) ∧
      (st.recording = false →
        start_recording name ts iso now st = (true, armed_state name now, none)) ∧
      (st.recording = false → stop_recording ts iso now st = (none, st, none)) ∧
      (armed_state name now).recorded_actions = [] ∧
      (armed_state name now).start_time = some now ∧
      (armed_state name now).recording = true := by
  intro name ts iso now st
  refine ⟨?_, ?_, ?_, rfl, rfl, rfl⟩
  · intro h
    simp [start_recording, stop_recording, h]
  · intro h
    simp [start_recording, h]
  · intro h
    simp [stop_recording, h]

/-- Witness for C8: starting over an armed session with a buffered event
persists that session's artifact and arms a fresh empty one; starting from
idle arms a fresh session with nothing persisted; stopping while idle returns
`None`. -/
theorem c8_witness :
    start_recording "next" "20250103_000000" "2025-01-03T00:00:00" 9
      sample_recorded_state =
      (true, armed_state "next" 9,
       some (save_workflow "20250103_000000" "2025-01-03T00:00:00" 9
         sample_recorded_state)) ∧
    start_recording "next" "20250103_000000" "2025-01-03T00:00:00" 9
      cleared_state = (true, armed_state "next" 9, none) ∧
    stop_recording "20250103_000000" "2025-01-03T00:00:00" 9 cleared_state =
      (none, cleared_state, none) :=
  ⟨(c8_single_armed_session "next" "20250103_000000" "2025-01-03T00:00:00" 9
      sample_recorded_state).1 rfl,
   (c8_single_armed_session "next" "20250103_000000" "2025-01-03T00:00:00" 9
      cleared_state).2.1 rfl,
   (c8_single_armed_session "next" "20250103_000000" "2025-01-03T00:00:00" 9
      cleared_state).2.2.1 rfl⟩

end SmartWorkflow
